import Mathlib

/-!
Verification of the DevTools-state detection and reaction engine.

Shallow embedding of the two variant implementations:
* the lightweight "YouDai DevShield" module (src/unnamed/part_000), and
* the aggressive `EnhancedDevToolsProtection` class (src/unnamed/part_001).

Pure fragments become Lean functions; the mutable singletons (`STATE` in
part_000, the class instance fields in part_001) become explicit state
records threaded through step functions; the asynchronous callbacks
(timers, DOM events, MutationObserver bodies) become events of a labelled
step function.  Pixel geometry and `performance.now()` durations are
modelled as integers; each comparison of the source against a fractional
threshold (0.3, 0.7, 0.85) is embedded in cross-multiplied form
(`a / b < 0.7` as `10 * a < 7 * b`), which is exact for the positive
screen/window dimensions a browser reports.
-/

/- ================================================================ -/
/- Part 000: the lightweight DevShield variant                       -/
/- ================================================================ -/

/-- Payload of an event emitted by the shield, as passed to the shared
`dispatch` helper of part_000.  `change` is the detail of
`youdai:devtools-change` (`{ open, reason }`); `tamper` is the detail of
`youdai:tamper` (`{ type, detail? }`). -/
inductive ShieldDetail where
  | change (openNow : Bool) (reason : String)
  | tamper (ty : String) (info : Option String)
deriving DecidableEq, Repr

/-- An event dispatched on `window` by part_000.  `shieldReady` is
`youdai:shield-ready`, dispatched with no detail. -/
inductive ShieldEvent where
  | devtoolsChange (openNow : Bool) (reason : String)
  | tamperEv (ty : String) (info : Option String)
  | shieldReady
deriving DecidableEq, Repr

/-- The detail object handed to every listener by `dispatch` in part_000
(line 45-51): the `detail` field of the CustomEvent, which is `undefined`
(`none`) for `youdai:shield-ready`. -/
def detailOf : ShieldEvent → Option ShieldDetail
  | ShieldEvent.devtoolsChange o r => some (ShieldDetail.change o r)
  | ShieldEvent.tamperEv t i => some (ShieldDetail.tamper t i)
  | ShieldEvent.shieldReady => none

/-- The mutable `STATE` singleton of part_000 (line 39):
`{ open: false, reason: 'init', listeners: new Set() }`.  `open` is a Lean
keyword, so the field is called `openFlag`.  Listeners are identified by
opaque numeric ids. -/
structure ShieldState where
  openFlag : Bool
  reason : String
  listeners : List Nat
deriving DecidableEq, Repr

def initialShieldState : ShieldState :=
  { openFlag := false, reason := "init", listeners := [] }

/-- `dispatch(name, detail)` (part_000 lines 45-51): every registered
listener is invoked with the event's detail (a throwing listener is
swallowed by the per-listener try/catch and does not stop the loop, so
every listener is still invoked).  The result is the list of
(listener, argument) invocations performed. -/
def dispatchCalls (st : ShieldState) (ev : ShieldEvent) :
    List (Nat × Option ShieldDetail) :=
  st.listeners.map (fun cb => (cb, detailOf ev))

/-- `api.onChange(cb)` (part_000 line 211): `STATE.listeners.add(cb)`.
Set semantics: adding an already-present member is a no-op. -/
def onChange (st : ShieldState) (cb : Nat) : ShieldState :=
  if cb ∈ st.listeners then st else { st with listeners := cb :: st.listeners }

/-- `setState(open, reason)` (part_000 lines 141-147).  The JS guard is
`if (STATE.open === open && !reason) return;` — a falsy (absent) reason is
modelled as `none`.  On the non-returning path the state is updated and a
`youdai:devtools-change` event with the *new* `{open, reason}` is
dispatched.  Returns the new state and the list of events dispatched. -/
def setState (st : ShieldState) (o : Bool) (r : Option String) :
    ShieldState × List ShieldEvent :=
  if st.openFlag = o ∧ r = none then (st, [])
  else
    let st1 : ShieldState :=
      { st with openFlag := o, reason := r.getD st.reason }
    (st1, [ShieldEvent.devtoolsChange st1.openFlag st1.reason])

/-- Probe inputs of one part_000 evaluation: the `debugger` elapsed time
and the window geometry, in the units the source reads them
(milliseconds, pixels). -/
structure Probes000 where
  dt : ℤ
  outerWidth : ℤ
  innerWidth : ℤ
  outerHeight : ℤ
  innerHeight : ℤ
deriving DecidableEq, Repr

/-- `timeHeuristic` (part_000 lines 115-121): triggers when the
`debugger` statement took more than `threshold` (= 200) ms. -/
def timeHeuristic (p : Probes000) : Option String :=
  if p.dt > 200 then some "debugger-timing" else none

/-- `sizeHeuristic` (part_000 lines 124-129): triggers when either
absolute outer/inner gap exceeds 160 px. -/
def sizeHeuristic (p : Probes000) : Option String :=
  let gapW := |p.outerWidth - p.innerWidth|
  let gapH := |p.outerHeight - p.innerHeight|
  if gapW > 160 ∨ gapH > 160 then some "viewport-gap" else none

/-- One `poll` tick of part_000 (lines 149-154):
`const sig = timeHeuristic() || sizeHeuristic();
 if (sig) setState(true, sig.reason); else setState(false, 'poll');`. -/
def pollStep (p : Probes000) (st : ShieldState) :
    ShieldState × List ShieldEvent :=
  match timeHeuristic p with
  | some r => setState st true (some r)
  | none =>
    match sizeHeuristic p with
    | some r => setState st true (some r)
    | none => setState st false (some "poll")

/-- The `consoleProbe.toString` side effect (part_000 lines 133-139):
calls `setState(true, 'console-probe')` directly. -/
def consoleProbeFire (st : ShieldState) : ShieldState × List ShieldEvent :=
  setState st true (some "console-probe")

/- ================================================================ -/
/- Initialization side effects (for the opt-out claim)               -/
/- ================================================================ -/

/-- Observable installation steps performed by the two module
initializers, in source order.  Used to state the opt-out claim. -/
inductive Effect where
  | consoleInfoLog      -- part_000: console.info on the opt-out path
  | hostAppend          -- part_000: shadow host appended to documentElement
  | shadowStyle         -- part_000: style node in the shadow root
  | badgeNode           -- part_000: watermark badge node
  | bannerNode          -- part_000: banner node
  | tamperObserver      -- part_000: MutationObserver on documentElement
  | integrityTask       -- part_000: async self-hash fetch
  | apiDefine           -- part_000: window.YouDaiDevShield property
  | resizeListener000   -- part_000: resize listener (sizeWatcher)
  | pollTimer           -- part_000: poll() -> recurring setTimeout
  | logProbeTask        -- part_000: raf(logProbe) console probe
  | readyDispatch       -- part_000: dispatch('youdai:shield-ready')
  | interceptFetch      -- part_001: window.fetch wrapped
  | interceptXhr        -- part_001: XMLHttpRequest.prototype.open wrapped
  | initialFullScan     -- part_001: detectDevToolsMultipleMethods()
  | keydownListener     -- part_001: keydown blocker
  | contextmenuListener -- part_001: contextmenu blocker
  | mousedownListener   -- part_001: mousedown blocker
  | detectInterval      -- part_001: setInterval(detectByMultipleMethods, 200)
  | resizeRecheck       -- part_001: resize listener
  | blurRecheck         -- part_001: blur listener
  | focusRecheck        -- part_001: focus listener
  | visibilityRecheck   -- part_001: visibilitychange listener
  | domReadySetup       -- part_001: setupAdvancedProtection scheduling
deriving DecidableEq, Repr

/-- Does the effect install a probe, a timer, or mutate the DOM?  (The
three side-effect classes named by the opt-out requirement; event
listeners and property definitions are classified separately.) -/
def isProbeTimerOrDom : Effect → Bool
  | Effect.consoleInfoLog => false
  | Effect.hostAppend => true
  | Effect.shadowStyle => true
  | Effect.badgeNode => true
  | Effect.bannerNode => true
  | Effect.tamperObserver => true
  | Effect.integrityTask => true
  | Effect.apiDefine => false
  | Effect.resizeListener000 => false
  | Effect.pollTimer => true
  | Effect.logProbeTask => true
  | Effect.readyDispatch => false
  | Effect.interceptFetch => false
  | Effect.interceptXhr => false
  | Effect.initialFullScan => true
  | Effect.keydownListener => false
  | Effect.contextmenuListener => false
  | Effect.mousedownListener => false
  | Effect.detectInterval => true
  | Effect.resizeRecheck => false
  | Effect.blurRecheck => false
  | Effect.focusRecheck => false
  | Effect.visibilityRecheck => false
  | Effect.domReadySetup => true

/-- The module IIFE of part_000 (lines 28-222).  The `?debug=1` opt-out is
checked first (lines 31-36): on the opt-out path the module logs one
informational line and returns before any probe, timer or DOM mutation.
Otherwise the listed installations happen, in source order. -/
def devShieldInitEffects (debugOptOut : Bool) : List Effect :=
  if debugOptOut then [Effect.consoleInfoLog]
  else
    [Effect.hostAppend, Effect.shadowStyle, Effect.badgeNode,
     Effect.bannerNode, Effect.tamperObserver, Effect.integrityTask,
     Effect.apiDefine, Effect.resizeListener000, Effect.pollTimer,
     Effect.logProbeTask, Effect.readyDispatch]

/-- The `EnhancedDevToolsProtection` constructor plus the module IIFE of
part_001 (lines 4-16, 999-1079).  The source contains no opt-out check of
any kind (no URL query flag is read anywhere in the file), so the
installation sequence does not depend on the flag. -/
def enhancedInitEffects (_debugOptOut : Bool) : List Effect :=
  [Effect.interceptFetch, Effect.interceptXhr, Effect.initialFullScan,
   Effect.keydownListener, Effect.contextmenuListener,
   Effect.mousedownListener, Effect.detectInterval, Effect.resizeRecheck,
   Effect.blurRecheck, Effect.focusRecheck, Effect.visibilityRecheck,
   Effect.domReadySetup]

/- ================================================================ -/
/- Part 001: the aggressive EnhancedDevToolsProtection variant       -/
/- ================================================================ -/

/-- What currently occupies the `window.fetch` slot:
the intercepting wrapper installed by `interceptNetworkRequests`
(part_001 lines 27-48), the rejecting blocker installed by
`blockNetworkRequests` (lines 424-427), or the saved original
(`restoreNetworkRequests`, lines 450-452). -/
inductive FetchSlot where
  | intercepted
  | blockedReject
  | original
deriving DecidableEq, Repr

/-- What currently occupies the `XMLHttpRequest.prototype.open` slot:
the intercepting wrapper (part_001 lines 51-62), the throwing blocker
(lines 430-433), or the saved original (lines 454-456). -/
inductive XhrSlot where
  | intercepted
  | blockedThrow
  | original
deriving DecidableEq, Repr

/-- The instance fields of `EnhancedDevToolsProtection` relevant to the
belief, network, overlay and eval/Function state, plus the two scheduled
asynchronous actions that the overlay watcher can leave pending. -/
structure PState where
  isDevToolsOpen : Bool
  protectionActive : Bool
  fetchSlot : FetchSlot
  xhrSlot : XhrSlot
  evalBlocked : Bool
  functionBlocked : Bool
  overlayPresent : Bool
  overlayHealScheduled : Bool
deriving DecidableEq, Repr

/-- State right after the constructor ran `interceptNetworkRequests`
(part_001 lines 5-15): belief closed, wrappers installed, `window.eval`
and `window.Function` untouched, no overlay. -/
def initPState : PState :=
  { isDevToolsOpen := false, protectionActive := false,
    fetchSlot := FetchSlot.intercepted, xhrSlot := XhrSlot.intercepted,
    evalBlocked := false, functionBlocked := false,
    overlayPresent := false, overlayHealScheduled := false }

/-- `showEnhancedProtectionOverlay` (part_001 lines 782-909): if an
element with id `devtools-overlay` already exists, return (no-op);
otherwise create and append it (and attach its removal watcher). -/
def showEnhancedProtectionOverlay (st : PState) : PState :=
  if st.overlayPresent then st else { st with overlayPresent := true }

/-- `blockNetworkRequests` (part_001 lines 420-446): guarded by
`if (!this.isDevToolsOpen) return;`, then replaces `window.fetch` with a
rejecting function and `XMLHttpRequest.prototype.open` with a throwing
one. -/
def blockNetworkRequests (st : PState) : PState :=
  if st.isDevToolsOpen = false then st
  else { st with fetchSlot := FetchSlot.blockedReject,
                 xhrSlot := XhrSlot.blockedThrow }

/-- `restoreNetworkRequests` (part_001 lines 448-457): restores the saved
originals (both were saved non-null in the constructor). -/
def restoreNetworkRequests (st : PState) : PState :=
  { st with fetchSlot := FetchSlot.original, xhrSlot := XhrSlot.original }

/-- `activateProtection` (part_001 lines 665-682): guarded by
`if (this.protectionActive) return;`; sets the flag and blocks network
requests (console flood and visual lock are outside this model). -/
def activateProtection (st : PState) : PState :=
  if st.protectionActive then st
  else blockNetworkRequests { st with protectionActive := true }

/-- `handleDevToolsDetected` (part_001 lines 764-780): guarded by
`if (this.isDevToolsOpen) return;`; sets the belief, activates
protection and shows the overlay. -/
def handleDevToolsDetected (st : PState) : PState :=
  if st.isDevToolsOpen then st
  else
    showEnhancedProtectionOverlay
      (activateProtection { st with isDevToolsOpen := true })

/-- `deactivateProtection` (part_001 lines 684-707): clears both flags,
restores the network primitives and removes the overlay.  Removing the
overlay fires the MutationObserver attached in
`showEnhancedProtectionOverlay` (lines 895-908), which schedules an
unconditional recreation 100 ms later — hence `overlayHealScheduled`. -/
def deactivateProtection (st : PState) : PState :=
  if st.overlayPresent then
    restoreNetworkRequests
      { st with protectionActive := false, isDevToolsOpen := false,
                overlayPresent := false, overlayHealScheduled := true }
  else
    restoreNetworkRequests
      { st with protectionActive := false, isDevToolsOpen := false }

/-- Probe inputs of one part_001 evaluation:
console-coercion outcome, window geometry (pixels), `debugger` trial
durations (ms), inspector-global inventory, and the load-timing
signal. -/
structure ProbeEnv where
  consoleCoerced : Bool
  consoleThrows : Bool
  outerWidth : ℤ
  innerWidth : ℤ
  outerHeight : ℤ
  innerHeight : ℤ
  screenWidth : ℤ
  screenHeight : ℤ
  debuggerDelays : List ℤ
  nativeGlobals : Nat
  mediaQueryThrows : Bool
  perfThrows : Bool
  slowLoad : Bool
deriving DecidableEq, Repr

/-- Method 1 of `detectDevToolsMultipleMethods` (part_001 lines 90-108):
the `id` getter of the logged element both sets the flag and throws, so a
coerced log lands in the catch and increments; an independently throwing
console also increments. -/
def method1Count (env : ProbeEnv) : Nat :=
  if env.consoleCoerced ∨ env.consoleThrows then 1 else 0

/-- Method 2 (lines 110-119): outer/inner differences against thresholds
`min(screen * 0.3, 200)` per dimension; both sides of each comparison are
scaled by 10 (`diff > min(screen * 0.3, 200)` iff
`10 * diff > min(3 * screen, 2000)`). -/
def method2Count (env : ProbeEnv) : Nat :=
  let heightThreshold := min (3 * env.screenHeight) 2000
  let widthThreshold := min (3 * env.screenWidth) 2000
  if 10 * (env.outerHeight - env.innerHeight) > heightThreshold ∨
     10 * (env.outerWidth - env.innerWidth) > widthThreshold then 1 else 0

/-- Method 3 (lines 121-131): up to three `debugger` trials, one
increment if any elapsed time exceeds 50 ms (the loop breaks there). -/
def method3Count (env : ProbeEnv) : Nat :=
  if (env.debuggerDelays.take 3).any (fun d => decide (d > 50)) then 1
  else 0

/-- Method 4 (lines 133-146): more than 3 of the known inspector globals
present and native. -/
def method4Count (env : ProbeEnv) : Nat :=
  if 3 < env.nativeGlobals then 1 else 0

/-- Method 5 (lines 148-157): inner dimension below 0.7 of the outer
dimension (`inner < outer * 0.7` iff `10 * inner < 7 * outer`); a throw
in the block skips the increment. -/
def method5Count (env : ProbeEnv) : Nat :=
  if env.mediaQueryThrows then 0
  else if 10 * env.innerWidth < 7 * env.outerWidth ∨
          10 * env.innerHeight < 7 * env.outerHeight then 1 else 0

/-- Method 6 (lines 159-168): navigation load longer than 2000 ms; a
throw skips the increment. -/
def method6Count (env : ProbeEnv) : Nat :=
  if env.perfThrows then 0 else if env.slowLoad then 1 else 0

/-- `detectionCount` accumulated by `detectDevToolsMultipleMethods`
(part_001 lines 86-175). -/
def detectionCount (env : ProbeEnv) : Nat :=
  method1Count env + method2Count env + method3Count env +
  method4Count env + method5Count env + method6Count env

/-- `detectDevToolsMultipleMethods` (lines 86-175): the quorum check
`if (detectionCount >= 2) this.handleDevToolsDetected();`. -/
def detectDevToolsMultipleMethods (env : ProbeEnv) (st : PState) : PState :=
  if 2 ≤ detectionCount env then handleDevToolsDetected st else st

/-- `detectByConsoleImproved` (part_001 lines 297-327): a coercion of any
of the three logged detectors while belief is closed triggers detection;
a throwing console likewise (`catch` branch). -/
def detectByConsoleImproved (env : ProbeEnv) (st : PState) : PState :=
  if env.consoleThrows then
    (if st.isDevToolsOpen then st else handleDevToolsDetected st)
  else if env.consoleCoerced ∧ st.isDevToolsOpen = false then
    handleDevToolsDetected st
  else st

/-- The `suspiciousSize` predicate of `detectByWindowSize` (part_001
lines 343-345): ratio-based clauses per dimension
(`inner / screen < 0.7` embedded as `10 * inner < 7 * screen`, exact
for positive screen dimensions), plus an unconditional absolute-gap
clause `heightDiff > 300 || widthDiff > 400`. -/
def suspiciousSize (env : ProbeEnv) : Bool :=
  (decide (10 * env.innerHeight < 7 * env.screenHeight) &&
     decide (env.outerHeight - env.innerHeight > 200)) ||
  (decide (10 * env.innerWidth < 7 * env.screenWidth) &&
     decide (env.outerWidth - env.innerWidth > 250)) ||
  (decide (env.outerHeight - env.innerHeight > 300) ||
     decide (env.outerWidth - env.innerWidth > 400))

/-- Synchronous outcome of `detectByWindowSize` (part_001 lines 329-356):
the belief is never changed synchronously; the function either schedules
a console double-check (open path, 200 ms later) or schedules
`checkIfReallyClosed` (closing path). -/
structure SizeOutcome where
  st : PState
  scheduledConsoleRecheck : Bool
  scheduledCloseConfirm : Bool
deriving DecidableEq, Repr

/-- `detectByWindowSize` (part_001 lines 329-356). -/
def detectByWindowSize (env : ProbeEnv) (st : PState) : SizeOutcome :=
  if suspiciousSize env && !st.isDevToolsOpen then
    { st := st, scheduledConsoleRecheck := true,
      scheduledCloseConfirm := false }
  else if st.isDevToolsOpen &&
      decide (20 * env.innerHeight > 17 * env.screenHeight) &&
      decide (20 * env.innerWidth > 17 * env.screenWidth) &&
      decide (env.outerHeight - env.innerHeight < 150) &&
      decide (env.outerWidth - env.innerWidth < 150) then
    { st := st, scheduledConsoleRecheck := false,
      scheduledCloseConfirm := true }
  else
    { st := st, scheduledConsoleRecheck := false,
      scheduledCloseConfirm := false }

/-- Inputs of the delayed `checkIfReallyClosed` body (part_001 lines
386-417): geometry, console-coercion outcome, and one `debugger`
duration. -/
structure CloseEnv where
  outerWidth : ℤ
  innerWidth : ℤ
  outerHeight : ℤ
  innerHeight : ℤ
  consoleCoerced : Bool
  consoleThrows : Bool
  debuggerDelay : ℤ
deriving DecidableEq, Repr

/-- The three verification checks of `checkIfReallyClosed` (part_001
lines 389-410): window-size gaps both below 100 px; console probe not
coerced (a throwing console also counts, via the catch); `debugger`
elapsed time below 50 ms. -/
def closedCount (c : CloseEnv) : Nat :=
  (if c.outerHeight - c.innerHeight < 100 ∧
      c.outerWidth - c.innerWidth < 100 then 1 else 0) +
  (if c.consoleThrows then 1 else if c.consoleCoerced then 0 else 1) +
  (if c.debuggerDelay < 50 then 1 else 0)

/-- The delay (ms) `checkIfReallyClosed` waits before re-evaluating
(part_001 line 388 / 416: `setTimeout(..., 1000)`). -/
def checkIfReallyClosedDelayMs : Nat := 1000

/-- The delayed body of `checkIfReallyClosed` (part_001 lines 388-416):
deactivates iff at least 2 of the 3 checks confirm closure. -/
def checkIfReallyClosedBody (c : CloseEnv) (st : PState) : PState :=
  if 2 ≤ closedCount c then deactivateProtection st else st

/-- Asynchronous triggers of part_001 that can touch the modelled
state.  Each corresponds to one callback body in the source. -/
inductive PEvent where
  /-- `detectDevToolsMultipleMethods` (initial scan, focus/blur and
  visibility re-checks, final 500 ms scan). -/
  | fullScan (env : ProbeEnv)
  /-- `detectByConsoleImproved` (200 ms interval part, and the scheduled
  double-check from `detectByWindowSize`). -/
  | consoleCheck (env : ProbeEnv)
  /-- Synchronous part of `detectByWindowSize` (interval and resize). -/
  | sizeCheck (env : ProbeEnv)
  /-- Delayed body of `detectByElementManipulation` (lines 368-383):
  `suspicious` = computed style wrong or the check threw. -/
  | elementCheck (suspicious : Bool)
  /-- A blocked key/contextmenu/mouse event handler calling
  `handleDevToolsDetected` directly (lines 461-544). -/
  | inputTrigger
  /-- Delayed body of `checkIfReallyClosed`. -/
  | closeConfirm (c : CloseEnv)
  /-- External DOM removal of the overlay element (observed by the
  watcher of lines 895-908). -/
  | overlayRemoved
  /-- The 100 ms recreation timer set by the overlay watcher. -/
  | overlayHealTimer
  /-- `blockBypassMethods` (lines 631-663), run from
  `setupAdvancedProtection`: overrides `window.eval` and
  `window.Function` with throwing functions. -/
  | setupBypass
deriving DecidableEq, Repr

/-- One asynchronous step of part_001. -/
def step : PEvent → PState → PState
  | PEvent.fullScan env, st => detectDevToolsMultipleMethods env st
  | PEvent.consoleCheck env, st => detectByConsoleImproved env st
  | PEvent.sizeCheck env, st => (detectByWindowSize env st).st
  | PEvent.elementCheck s, st =>
      if s then handleDevToolsDetected st else st
  | PEvent.inputTrigger, st => handleDevToolsDetected st
  | PEvent.closeConfirm c, st => checkIfReallyClosedBody c st
  | PEvent.overlayRemoved, st =>
      if st.overlayPresent then
        { st with overlayPresent := false, overlayHealScheduled := true }
      else st
  | PEvent.overlayHealTimer, st =>
      if st.overlayHealScheduled then
        showEnhancedProtectionOverlay { st with overlayHealScheduled := false }
      else st
  | PEvent.setupBypass, st =>
      { st with evalBlocked := true, functionBlocked := true }

/-- Run a list of events left to right. -/
def runEvents (evs : List PEvent) (st : PState) : PState :=
  evs.foldl (fun s e => step e s) st

/-- States reachable from the post-constructor state. -/
inductive Reachable : PState → Prop where
  | init : Reachable initPState
  | next (ev : PEvent) {st : PState} :
      Reachable st → Reachable (step ev st)

/-- Result of a call to whatever occupies the `window.fetch` slot:
the synthesized 403 `Response` of the interceptor, the rejected promise
of the blocker, or a call of the saved original with the given
arguments (the only transport-reaching outcome). -/
inductive FetchResult where
  | fake403
  | rejectedError
  | forwarded (args : List String)
deriving DecidableEq, Repr

/-- Dispatch of a `window.fetch(...args)` call against the current slot
(part_001 lines 27-48, 424-427, 450-452). -/
def fetchCall (st : PState) (args : List String) : FetchResult :=
  match st.fetchSlot with
  | FetchSlot.intercepted =>
      if st.isDevToolsOpen then FetchResult.fake403
      else FetchResult.forwarded args
  | FetchSlot.blockedReject => FetchResult.rejectedError
  | FetchSlot.original => FetchResult.forwarded args

/-- Result of a call to whatever occupies the
`XMLHttpRequest.prototype.open` slot: the interceptor's silent return,
the blocker's thrown error, or a call of the saved original with the
given arguments. -/
inductive XhrResult where
  | silentDrop
  | threwError
  | forwardedOpen (method : String) (url : String) (rest : List String)
deriving DecidableEq, Repr

/-- Dispatch of an `xhr.open(method, url, ...rest)` call against the
current slot (part_001 lines 51-62, 430-433, 454-456). -/
def xhrOpenCall (st : PState) (method url : String) (rest : List String) :
    XhrResult :=
  match st.xhrSlot with
  | XhrSlot.intercepted =>
      if st.isDevToolsOpen then XhrResult.silentDrop
      else XhrResult.forwardedOpen method url rest
  | XhrSlot.blockedThrow => XhrResult.threwError
  | XhrSlot.original => XhrResult.forwardedOpen method url rest

/-- A call to whatever occupies the `window.eval` slot (part_001 lines
646-648): after `blockBypassMethods` it throws for any argument. -/
def evalCall (st : PState) (args : List String) :
    Except String (List String) :=
  if st.evalBlocked then Except.error "eval() is disabled"
  else Except.ok args

/-- A construction through whatever occupies the `window.Function` slot
(part_001 lines 650-652). -/
def functionCtorCall (st : PState) (args : List String) :
    Except String (List String) :=
  if st.functionBlocked then Except.error "Function constructor is disabled"
  else Except.ok args

/- ================================================================ -/
/- Claim propositions and concrete example inputs                    -/
/- ================================================================ -/

/-- Claim C1 as stated: the stored `open` always equals the most recent
decision, and a transition event is emitted iff that decision differs
from the immediately preceding `open` value. -/
def ClaimC1 : Prop :=
  ∀ (st : ShieldState) (o : Bool) (r : Option String),
    (setState st o r).1.openFlag = o ∧
    ((setState st o r).2 ≠ [] ↔ st.openFlag ≠ o)

/-- Claim C4 as stated: with the opt-out flag present, both variant
initializers install no probe, no timer, and perform no DOM mutation. -/
def ClaimC4 : Prop :=
  (∀ e ∈ devShieldInitEffects true, isProbeTimerOrDom e = false) ∧
  (∀ e ∈ enhancedInitEffects true, isProbeTimerOrDom e = false)

/-- Whether an event of the part_001 system carries a fusion-policy
decision for "open": only the full multi-method scan evaluates the
count-based quorum; every other trigger path runs no fusion. -/
def eventFusionDecidedOpen : PEvent → Prop
  | PEvent.fullScan env => 2 ≤ detectionCount env
  | _ => False

/-- Claim C5 as stated: every path that flips belief to Open routed its
verdict through the fusion policy (the quorum decided "open"). -/
def ClaimC5 : Prop :=
  ∀ (ev : PEvent) (st : PState), st.isDevToolsOpen = false →
    (step ev st).isDevToolsOpen = true → eventFusionDecidedOpen ev

/-- Claim C7 as stated: the simple-mode probe triggers exactly on an
absolute gap above 160 px, and the ratio-based refinement triggers only
when the inner/screen ratio is below 0.7 and the corresponding absolute
gap exceeds 200 px (height) / 250 px (width). -/
def ClaimC7 : Prop :=
  (∀ g : Probes000, (sizeHeuristic g).isSome = true ↔
      (|g.outerWidth - g.innerWidth| > 160 ∨
       |g.outerHeight - g.innerHeight| > 160)) ∧
  (∀ env : ProbeEnv, suspiciousSize env = true →
      ((10 * env.innerHeight < 7 * env.screenHeight ∧
        env.outerHeight - env.innerHeight > 200) ∨
       (10 * env.innerWidth < 7 * env.screenWidth ∧
        env.outerWidth - env.innerWidth > 250)))

/-- A confirmation-pass input in which all three closure checks pass:
zero window gaps, console probe not coerced, `debugger` instantaneous. -/
def allClosedEnv : CloseEnv :=
  { outerWidth := 1000, innerWidth := 1000,
    outerHeight := 1000, innerHeight := 1000,
    consoleCoerced := false, consoleThrows := false, debuggerDelay := 0 }

/-- A confirmation-pass input in which no closure check passes: large
window gaps, console probe coerced, slow `debugger`. -/
def failedCloseEnv : CloseEnv :=
  { outerWidth := 500, innerWidth := 0,
    outerHeight := 500, innerHeight := 0,
    consoleCoerced := true, consoleThrows := false, debuggerDelay := 100 }

/-- A probe environment in which exactly one of the six methods triggers
(one slow `debugger` trial; geometry and console silent). -/
def quorumOneEnv : ProbeEnv :=
  { consoleCoerced := false, consoleThrows := false,
    outerWidth := 1000, innerWidth := 1000,
    outerHeight := 1000, innerHeight := 1000,
    screenWidth := 1000, screenHeight := 1000,
    debuggerDelays := [100], nativeGlobals := 0,
    mediaQueryThrows := false, perfThrows := false, slowLoad := false }

/-- The same environment with the console probe also coerced: exactly
two methods trigger. -/
def quorumTwoEnv : ProbeEnv :=
  { quorumOneEnv with consoleCoerced := true }

/-- An environment in which only the console probe fires. -/
def coercedOnlyEnv : ProbeEnv :=
  { quorumOneEnv with consoleCoerced := true, debuggerDelays := [] }

/-- Geometry refuting the "ratio below 0.7" reading of the refined
viewport probe: height ratio 0.8 and width ratio 0.95, but a height gap
of 350 px trips the unconditional `heightDiff > 300` clause. -/
def ratioCounterEnv : ProbeEnv :=
  { consoleCoerced := false, consoleThrows := false,
    outerWidth := 1950, innerWidth := 1900,
    outerHeight := 1950, innerHeight := 1600,
    screenWidth := 2000, screenHeight := 2000,
    debuggerDelays := [], nativeGlobals := 0,
    mediaQueryThrows := false, perfThrows := false, slowLoad := false }

/-- The state after a blocked input event triggered detection from the
post-constructor state: belief Open, protection and overlay on. -/
def openExState : PState := step PEvent.inputTrigger initPState

/-- Trace for the overlay-resurrection defect: detection opens the
overlay, a fully confirmed closure pass deactivates (removing the
overlay and thereby scheduling its recreation), and the 100 ms heal
timer then fires. -/
def resurrectTrace : PState :=
  step PEvent.overlayHealTimer
    (step (PEvent.closeConfirm allClosedEnv)
      (step PEvent.inputTrigger initPState))

/-- Network-and-belief invariant of part_001: the protection flag tracks
the belief, and while the belief is Open both request slots hold the
blocking replacements installed by `blockNetworkRequests`. -/
def NetInv (st : PState) : Prop :=
  st.protectionActive = st.isDevToolsOpen ∧
  (st.isDevToolsOpen = true →
    st.fetchSlot = FetchSlot.blockedReject ∧
    st.xhrSlot = XhrSlot.blockedThrow)


/- ================================================================ -/
/- Helper lemmas                                                     -/
/- ================================================================ -/

lemma showOverlay_isDevToolsOpen (st : PState) :
    (showEnhancedProtectionOverlay st).isDevToolsOpen = st.isDevToolsOpen := by
  unfold showEnhancedProtectionOverlay
  split <;> rfl

lemma blockNetwork_isDevToolsOpen (st : PState) :
    (blockNetworkRequests st).isDevToolsOpen = st.isDevToolsOpen := by
  unfold blockNetworkRequests
  split <;> rfl

lemma activate_isDevToolsOpen (st : PState) :
    (activateProtection st).isDevToolsOpen = st.isDevToolsOpen := by
  unfold activateProtection
  split
  · rfl
  · rw [blockNetwork_isDevToolsOpen]

/-- After `handleDevToolsDetected` the belief is always Open: either it
already was (guard path), or the handler just set it. -/
lemma handle_isDevToolsOpen (st : PState) :
    (handleDevToolsDetected st).isDevToolsOpen = true := by
  unfold handleDevToolsDetected
  split
  · next h => exact h
  · rw [showOverlay_isDevToolsOpen, activate_isDevToolsOpen]

lemma handle_open_noop (st : PState) (h : st.isDevToolsOpen = true) :
    handleDevToolsDetected st = st := by
  unfold handleDevToolsDetected
  simp [h]

lemma sizeCheck_state_id (env : ProbeEnv) (st : PState) :
    (detectByWindowSize env st).st = st := by
  unfold detectByWindowSize
  split
  · rfl
  · split <;> rfl

lemma deactivate_isDevToolsOpen (st : PState) :
    (deactivateProtection st).isDevToolsOpen = false := by
  unfold deactivateProtection restoreNetworkRequests
  split <;> rfl

lemma deactivate_fetchSlot (st : PState) :
    (deactivateProtection st).fetchSlot = FetchSlot.original := by
  unfold deactivateProtection restoreNetworkRequests
  split <;> rfl

lemma deactivate_xhrSlot (st : PState) :
    (deactivateProtection st).xhrSlot = XhrSlot.original := by
  unfold deactivateProtection restoreNetworkRequests
  split <;> rfl

/-- `detectByConsoleImproved` either leaves the state alone or routes
through `handleDevToolsDetected`. -/
lemma consoleImproved_eq (env : ProbeEnv) (st : PState) :
    detectByConsoleImproved env st = st ∨
    detectByConsoleImproved env st = handleDevToolsDetected st := by
  unfold detectByConsoleImproved
  split
  · split
    · exact Or.inl rfl
    · exact Or.inr rfl
  · split
    · exact Or.inr rfl
    · exact Or.inl rfl

/-- Any step keeps `isDevToolsOpen = true`, except a `closeConfirm` whose
verification quorum is met. -/
lemma step_keeps_open (ev : PEvent) (st : PState)
    (hopen : st.isDevToolsOpen = true)
    (hnc : ∀ c : CloseEnv, ev = PEvent.closeConfirm c → closedCount c < 2) :
    (step ev st).isDevToolsOpen = true := by
  cases ev with
  | fullScan env =>
      simp only [step]
      unfold detectDevToolsMultipleMethods
      split
      · exact handle_isDevToolsOpen _
      · exact hopen
  | consoleCheck env =>
      simp only [step]
      cases consoleImproved_eq env st with
      | inl he => rw [he]; exact hopen
      | inr he => rw [he]; exact handle_isDevToolsOpen _
  | sizeCheck env =>
      simp only [step]
      rw [sizeCheck_state_id]
      exact hopen
  | elementCheck s =>
      simp only [step]
      split
      · exact handle_isDevToolsOpen _
      · exact hopen
  | inputTrigger =>
      simp only [step]
      exact handle_isDevToolsOpen _
  | closeConfirm c =>
      simp only [step]
      unfold checkIfReallyClosedBody
      split
      · next h2 => exact absurd h2 (Nat.not_le.mpr (hnc c rfl))
      · exact hopen
  | overlayRemoved =>
      simp only [step]
      split
      · exact hopen
      · exact hopen
  | overlayHealTimer =>
      simp only [step]
      split
      · rw [showOverlay_isDevToolsOpen]; exact hopen
      · exact hopen
  | setupBypass =>
      simp only [step]
      exact hopen

lemma netInv_init : NetInv initPState := by
  constructor
  · rfl
  · intro h
    exact absurd h (by simp [initPState])

lemma netInv_handle (st : PState) (h : NetInv st) :
    NetInv (handleDevToolsDetected st) := by
  by_cases ho : st.isDevToolsOpen = true
  · rw [handle_open_noop st ho]
    exact h
  · obtain ⟨o, a, f, x, e, fn, ov, hs⟩ := st
    obtain ⟨hpa, _⟩ := h
    have ho' : o = false := by simpa using ho
    subst ho'
    have hpa' : a = false := by simpa using hpa
    subst hpa'
    cases ov <;>
      simp [handleDevToolsDetected, activateProtection, blockNetworkRequests,
        showEnhancedProtectionOverlay, NetInv]

lemma netInv_deactivate (st : PState) :
    NetInv (deactivateProtection st) := by
  obtain ⟨o, a, f, x, e, fn, ov, hs⟩ := st
  cases ov <;>
    simp [deactivateProtection, restoreNetworkRequests, NetInv]

lemma netInv_step (ev : PEvent) (st : PState) (h : NetInv st) :
    NetInv (step ev st) := by
  cases ev with
  | fullScan env =>
      simp only [step]
      unfold detectDevToolsMultipleMethods
      split
      · exact netInv_handle _ h
      · exact h
  | consoleCheck env =>
      simp only [step]
      cases consoleImproved_eq env st with
      | inl he => rw [he]; exact h
      | inr he => rw [he]; exact netInv_handle _ h
  | sizeCheck env =>
      simp only [step]
      rw [sizeCheck_state_id]
      exact h
  | elementCheck s =>
      simp only [step]
      split
      · exact netInv_handle _ h
      · exact h
  | inputTrigger =>
      simp only [step]
      exact netInv_handle _ h
  | closeConfirm c =>
      simp only [step]
      unfold checkIfReallyClosedBody
      split
      · exact netInv_deactivate _
      · exact h
  | overlayRemoved =>
      obtain ⟨hpa, hslots⟩ := h
      simp only [step]
      split
      · exact ⟨hpa, hslots⟩
      · exact ⟨hpa, hslots⟩
  | overlayHealTimer =>
      obtain ⟨hpa, hslots⟩ := h
      simp only [step]
      split
      · unfold showEnhancedProtectionOverlay
        split
        · exact ⟨hpa, hslots⟩
        · exact ⟨hpa, hslots⟩
      · exact ⟨hpa, hslots⟩
  | setupBypass =>
      obtain ⟨hpa, hslots⟩ := h
      exact ⟨hpa, hslots⟩

lemma reachable_netInv (st : PState) (h : Reachable st) : NetInv st := by
  induction h with
  | init => exact netInv_init
  | next ev _ ih => exact netInv_step ev _ ih

lemma showOverlay_evalBlocked (st : PState) :
    (showEnhancedProtectionOverlay st).evalBlocked = st.evalBlocked := by
  unfold showEnhancedProtectionOverlay
  split <;> rfl

lemma blockNetwork_evalBlocked (st : PState) :
    (blockNetworkRequests st).evalBlocked = st.evalBlocked := by
  unfold blockNetworkRequests
  split <;> rfl

lemma activate_evalBlocked (st : PState) :
    (activateProtection st).evalBlocked = st.evalBlocked := by
  unfold activateProtection
  split
  · rfl
  · rw [blockNetwork_evalBlocked]

lemma handle_evalBlocked (st : PState) :
    (handleDevToolsDetected st).evalBlocked = st.evalBlocked := by
  unfold handleDevToolsDetected
  split
  · rfl
  · rw [showOverlay_evalBlocked, activate_evalBlocked]

lemma deactivate_evalBlocked (st : PState) :
    (deactivateProtection st).evalBlocked = st.evalBlocked := by
  unfold deactivateProtection restoreNetworkRequests
  split <;> rfl

lemma showOverlay_functionBlocked (st : PState) :
    (showEnhancedProtectionOverlay st).functionBlocked = st.functionBlocked := by
  unfold showEnhancedProtectionOverlay
  split <;> rfl

lemma blockNetwork_functionBlocked (st : PState) :
    (blockNetworkRequests st).functionBlocked = st.functionBlocked := by
  unfold blockNetworkRequests
  split <;> rfl

lemma activate_functionBlocked (st : PState) :
    (activateProtection st).functionBlocked = st.functionBlocked := by
  unfold activateProtection
  split
  · rfl
  · rw [blockNetwork_functionBlocked]

lemma handle_functionBlocked (st : PState) :
    (handleDevToolsDetected st).functionBlocked = st.functionBlocked := by
  unfold handleDevToolsDetected
  split
  · rfl
  · rw [showOverlay_functionBlocked, activate_functionBlocked]

lemma deactivate_functionBlocked (st : PState) :
    (deactivateProtection st).functionBlocked = st.functionBlocked := by
  unfold deactivateProtection restoreNetworkRequests
  split <;> rfl

lemma step_evalBlocked (ev : PEvent) (st : PState)
    (h : st.evalBlocked = true) : (step ev st).evalBlocked = true := by
  cases ev with
  | fullScan env =>
      simp only [step]
      unfold detectDevToolsMultipleMethods
      split
      · rw [handle_evalBlocked]; exact h
      · exact h
  | consoleCheck env =>
      simp only [step]
      cases consoleImproved_eq env st with
      | inl he => rw [he]; exact h
      | inr he => rw [he, handle_evalBlocked]; exact h
  | sizeCheck env =>
      simp only [step]
      rw [sizeCheck_state_id]
      exact h
  | elementCheck s =>
      simp only [step]
      split
      · rw [handle_evalBlocked]; exact h
      · exact h
  | inputTrigger =>
      simp only [step]
      rw [handle_evalBlocked]; exact h
  | closeConfirm c =>
      simp only [step]
      unfold checkIfReallyClosedBody
      split
      · rw [deactivate_evalBlocked]; exact h
      · exact h
  | overlayRemoved =>
      simp only [step]
      split
      · exact h
      · exact h
  | overlayHealTimer =>
      simp only [step]
      split
      · rw [showOverlay_evalBlocked]; exact h
      · exact h
  | setupBypass => rfl

lemma step_functionBlocked (ev : PEvent) (st : PState)
    (h : st.functionBlocked = true) :
    (step ev st).functionBlocked = true := by
  cases ev with
  | fullScan env =>
      simp only [step]
      unfold detectDevToolsMultipleMethods
      split
      · rw [handle_functionBlocked]; exact h
      · exact h
  | consoleCheck env =>
      simp only [step]
      cases consoleImproved_eq env st with
      | inl he => rw [he]; exact h
      | inr he => rw [he, handle_functionBlocked]; exact h
  | sizeCheck env =>
      simp only [step]
      rw [sizeCheck_state_id]
      exact h
  | elementCheck s =>
      simp only [step]
      split
      · rw [handle_functionBlocked]; exact h
      · exact h
  | inputTrigger =>
      simp only [step]
      rw [handle_functionBlocked]; exact h
  | closeConfirm c =>
      simp only [step]
      unfold checkIfReallyClosedBody
      split
      · rw [deactivate_functionBlocked]; exact h
      · exact h
  | overlayRemoved =>
      simp only [step]
      split
      · exact h
      · exact h
  | overlayHealTimer =>
      simp only [step]
      split
      · rw [showOverlay_functionBlocked]; exact h
      · exact h
  | setupBypass => rfl

lemma runEvents_evalBlocked (evs : List PEvent) (st : PState)
    (h : st.evalBlocked = true) : (runEvents evs st).evalBlocked = true := by
  induction evs generalizing st with
  | nil => exact h
  | cons ev rest ih => exact ih _ (step_evalBlocked ev st h)

lemma runEvents_functionBlocked (evs : List PEvent) (st : PState)
    (h : st.functionBlocked = true) :
    (runEvents evs st).functionBlocked = true := by
  induction evs generalizing st with
  | nil => exact h
  | cons ev rest ih => exact ih _ (step_functionBlocked ev st h)

/- ================================================================ -/
/- Claim theorems                                                    -/
/- ================================================================ -/

/-- C1 (counterexample): the claim "a transition event is emitted to
subscribers if and only if the decision differs from the immediately
preceding `open` value" is false for part_000: `setState(false, 'poll')`
on an already-closed state dispatches a `youdai:devtools-change` event,
because the guard only suppresses the dispatch when the reason is
falsy. -/
theorem C1_counterexample : ¬ ClaimC1 := by
  intro h
  have h2 := (h initialShieldState false (some "poll")).2
  have he : (setState initialShieldState false (some "poll")).2 =
      [ShieldEvent.devtoolsChange false "poll"] := rfl
  rw [he] at h2
  exact (h2.mp (by simp)) rfl

/-- C1 (amended): the stored `open` always equals the most recent
decision, and the state update emits a transition event iff the decision
differs from the preceding `open` value OR a non-empty reason is
supplied; repeated updates with an equal verdict and no reason emit
nothing, and in part_001 a repeated `handleDevToolsDetected` on an
already-open state is a strict no-op. -/
theorem C1_belief_update_amended :
    ∀ (st : ShieldState) (o : Bool) (r : Option String),
      (setState st o r).1.openFlag = o ∧
      ((setState st o r).2 = [] ↔ (st.openFlag = o ∧ r = none)) ∧
      (∀ ps : PState,
        handleDevToolsDetected { ps with isDevToolsOpen := true } =
          { ps with isDevToolsOpen := true }) := by
  intro st o r
  refine ⟨?_, ?_, ?_⟩
  · unfold setState
    split
    · next hcond => exact hcond.1
    · rfl
  · unfold setState
    split
    · next hcond => exact iff_of_true rfl hcond
    · next hcond => exact iff_of_false (by simp) hcond
  · intro ps
    unfold handleDevToolsDetected
    simp

/-- C2: while belief is Open, no re-evaluation step closes it except the
delayed `checkIfReallyClosed` body with at least 2 of its 3 verification
checks confirming closure; a confirmation pass that fails its quorum
leaves belief Open, and the pass runs after a 1000 ms delay. -/
theorem C2_open_close_hysteresis (ev : PEvent) (st : PState)
    (hopen : st.isDevToolsOpen = true) :
    ((step ev st).isDevToolsOpen = false →
      ∃ c : CloseEnv, ev = PEvent.closeConfirm c ∧ 2 ≤ closedCount c) ∧
    (∀ c : CloseEnv, ev = PEvent.closeConfirm c → closedCount c < 2 →
      (step ev st).isDevToolsOpen = true) ∧
    checkIfReallyClosedDelayMs = 1000 := by
  refine ⟨?_, ?_, rfl⟩
  · intro hflip
    by_cases hc : ∀ c : CloseEnv, ev = PEvent.closeConfirm c → closedCount c < 2
    · rw [step_keeps_open ev st hopen hc] at hflip
      cases hflip
    · push_neg at hc
      obtain ⟨c, hev, hcnt⟩ := hc
      exact ⟨c, hev, hcnt⟩
  · intro c hev hcnt
    subst hev
    refine step_keeps_open _ st hopen ?_
    intro c2 h2
    injection h2 with h3
    exact h3 ▸ hcnt

/-- C2 witness: from a concretely opened state, a confirmation pass in
which all three checks fail (large gaps, coerced console, slow debugger)
does not close the belief. -/
theorem C2_open_close_hysteresis_witness :
    (step (PEvent.closeConfirm failedCloseEnv) openExState).isDevToolsOpen
      = true ∧
    checkIfReallyClosedDelayMs = 1000 := by
  have h := C2_open_close_hysteresis
    (PEvent.closeConfirm failedCloseEnv) openExState rfl
  exact ⟨h.2.1 failedCloseEnv rfl (by decide), h.2.2⟩

/-- C3: in every reachable state with belief Open, a fetch call yields
the synthesized 403 or a rejection and an XHR open never calls the saved
original; and after the deactivating confirmation pass the next fetch
and XHR open are dispatched through the saved originals with the
caller's arguments unmodified. -/
theorem C3_network_interception_gating (st : PState) (hr : Reachable st) :
    (st.isDevToolsOpen = true →
      (∀ args : List String,
        fetchCall st args = FetchResult.fake403 ∨
        fetchCall st args = FetchResult.rejectedError) ∧
      (∀ (method url : String) (rest : List String),
        xhrOpenCall st method url rest = XhrResult.silentDrop ∨
        xhrOpenCall st method url rest = XhrResult.threwError)) ∧
    (∀ c : CloseEnv, 2 ≤ closedCount c →
      (∀ args : List String,
        fetchCall (step (PEvent.closeConfirm c) st) args =
          FetchResult.forwarded args) ∧
      (∀ (method url : String) (rest : List String),
        xhrOpenCall (step (PEvent.closeConfirm c) st) method url rest =
          XhrResult.forwardedOpen method url rest)) := by
  have hinv := reachable_netInv st hr
  constructor
  · intro ho
    obtain ⟨hf, hx⟩ := hinv.2 ho
    constructor
    · intro args
      right
      unfold fetchCall
      rw [hf]
    · intro method url rest
      right
      unfold xhrOpenCall
      rw [hx]
  · intro c hc
    have hstep : step (PEvent.closeConfirm c) st = deactivateProtection st := by
      simp only [step]
      unfold checkIfReallyClosedBody
      rw [if_pos hc]
    rw [hstep]
    constructor
    · intro args
      unfold fetchCall
      rw [deactivate_fetchSlot]
    · intro method url rest
      unfold xhrOpenCall
      rw [deactivate_xhrSlot]

/-- C3 witness: in the concretely opened reachable state every fetch is
blocked, and after a fully confirmed closure pass the original fetch and
XHR open receive the caller's exact arguments. -/
theorem C3_network_interception_gating_witness :
    (fetchCall openExState ["https://example.com/data.json"] =
        FetchResult.fake403 ∨
     fetchCall openExState ["https://example.com/data.json"] =
        FetchResult.rejectedError) ∧
    fetchCall (step (PEvent.closeConfirm allClosedEnv) openExState)
        ["https://example.com/data.json"] =
      FetchResult.forwarded ["https://example.com/data.json"] ∧
    xhrOpenCall (step (PEvent.closeConfirm allClosedEnv) openExState)
        "GET" "https://example.com/data.json" [] =
      XhrResult.forwardedOpen "GET" "https://example.com/data.json" [] := by
  have h := C3_network_interception_gating openExState
    (Reachable.next PEvent.inputTrigger Reachable.init)
  exact ⟨(h.1 rfl).1 _, (h.2 allClosedEnv (by decide)).1 _,
    (h.2 allClosedEnv (by decide)).2 _ _ _⟩

/-- C4 (counterexample): the claim fails for the aggressive variant:
its initializer reads no opt-out flag at all, and with the flag present
it still installs the 200 ms detection interval (a timer). -/
theorem C4_counterexample : ¬ ClaimC4 := by
  intro h
  exact absurd (h.2 Effect.detectInterval (by decide)) (by decide)

/-- C4 (amended): the opt-out holds for the lightweight variant (its
opt-out path performs no probe/timer/DOM-mutation effect), but the
aggressive variant ignores the flag entirely: its installation sequence
is identical with and without the flag and includes probe and timer
effects. -/
theorem C4_optout_amended :
    (devShieldInitEffects true).all (fun e => !(isProbeTimerOrDom e)) = true ∧
    (∀ b : Bool, enhancedInitEffects b = enhancedInitEffects true) ∧
    (enhancedInitEffects true).any (fun e => isProbeTimerOrDom e) = true ∧
    devShieldInitEffects false ≠ [] := by decide

/-- C5 (counterexample): the claim "no trigger path sets belief Open or
Closed while bypassing fusion" is false: a blocked input event flips
belief to Open directly via `handleDevToolsDetected`, with no fusion
quorum evaluated on that path. -/
theorem C5_counterexample : ¬ ClaimC5 := fun h =>
  h PEvent.inputTrigger initPState rfl rfl

/-- C5 (amended): only the full multi-method scan gates the flip to Open
on the count-based quorum; the input-event path always flips belief Open
directly, and the console-coercion and element-manipulation paths flip
it on a single trigger without any quorum. -/
theorem C5_trigger_paths_amended (st : PState)
    (hclosed : st.isDevToolsOpen = false) :
    (step PEvent.inputTrigger st).isDevToolsOpen = true ∧
    (∀ env : ProbeEnv, env.consoleCoerced = true →
      (step (PEvent.consoleCheck env) st).isDevToolsOpen = true) ∧
    (∀ s : Bool, s = true →
      (step (PEvent.elementCheck s) st).isDevToolsOpen = true) ∧
    (∀ env : ProbeEnv,
      (step (PEvent.fullScan env) st).isDevToolsOpen = true ↔
        2 ≤ detectionCount env) := by
  refine ⟨handle_isDevToolsOpen st, ?_, ?_, ?_⟩
  · intro env hc
    simp only [step]
    unfold detectByConsoleImproved
    split
    all_goals simp_all [handle_isDevToolsOpen]
  · intro s hs
    simp only [step]
    simp [hs, handle_isDevToolsOpen]
  · intro env
    simp only [step]
    unfold detectDevToolsMultipleMethods
    constructor
    · intro hopen2
      by_contra hlt
      rw [if_neg hlt] at hopen2
      rw [hclosed] at hopen2
      cases hopen2
    · intro hq
      rw [if_pos hq]
      exact handle_isDevToolsOpen _

/-- C5 witness: from the initial state, the input-event path flips
belief Open, and so does a console-only environment whose quorum count
is just 1. -/
theorem C5_trigger_paths_amended_witness :
    (step PEvent.inputTrigger initPState).isDevToolsOpen = true ∧
    (step (PEvent.consoleCheck coercedOnlyEnv) initPState).isDevToolsOpen
      = true ∧
    detectionCount coercedOnlyEnv = 1 := by
  have h := C5_trigger_paths_amended initPState rfl
  exact ⟨h.1, h.2.1 coercedOnlyEnv rfl, by decide⟩

/-- C6: under the aggressive count-based fusion, a full scan whose
quorum count is exactly 1 leaves a Closed belief Closed, and a scan
whose count reaches 2 flips it to Open. -/
theorem C6_quorum_two_of_n (env : ProbeEnv) (st : PState)
    (hclosed : st.isDevToolsOpen = false) :
    (detectionCount env = 1 →
      (step (PEvent.fullScan env) st).isDevToolsOpen = false) ∧
    (2 ≤ detectionCount env →
      (step (PEvent.fullScan env) st).isDevToolsOpen = true) := by
  constructor
  · intro h1
    simp only [step]
    unfold detectDevToolsMultipleMethods
    rw [h1]
    simp [hclosed]
  · intro h2
    simp only [step]
    unfold detectDevToolsMultipleMethods
    rw [if_pos h2]
    exact handle_isDevToolsOpen _

/-- C6 witness: a concrete environment with exactly one triggering
method leaves the initial belief Closed; adding a second triggering
method flips it to Open. -/
theorem C6_quorum_two_of_n_witness :
    (step (PEvent.fullScan quorumOneEnv) initPState).isDevToolsOpen
      = false ∧
    (step (PEvent.fullScan quorumTwoEnv) initPState).isDevToolsOpen
      = true := by
  have h1 := C6_quorum_two_of_n quorumOneEnv initPState rfl
  have h2 := C6_quorum_two_of_n quorumTwoEnv initPState rfl
  exact ⟨h1.1 (by decide), h2.2 (by decide)⟩

/-- C7 (counterexample): the refined viewport probe is not restricted to
"ratio below 0.7 AND gap above 200-250 px": with height ratio 0.8 (and
width ratio 0.95) a 350 px height gap still triggers it, via the
unconditional `heightDiff > 300` clause. -/
theorem C7_counterexample : ¬ ClaimC7 := by
  intro h
  rcases h.2 ratioCounterEnv (by decide) with ⟨hlt, _⟩ | ⟨hlt, _⟩ <;>
    revert hlt <;> decide

/-- C7 (amended): the simple-mode probe triggers exactly when either
absolute outer/inner gap exceeds 160 px; the refined probe triggers
exactly when a dimension has ratio below 0.7 with gap above 200 px
(height) / 250 px (width), or unconditionally when the height gap
exceeds 300 px or the width gap exceeds 400 px. -/
theorem C7_viewport_probe_amended :
    (∀ g : Probes000, (sizeHeuristic g).isSome = true ↔
        (|g.outerWidth - g.innerWidth| > 160 ∨
         |g.outerHeight - g.innerHeight| > 160)) ∧
    (∀ env : ProbeEnv, suspiciousSize env = true ↔
        ((10 * env.innerHeight < 7 * env.screenHeight ∧
          env.outerHeight - env.innerHeight > 200) ∨
         (10 * env.innerWidth < 7 * env.screenWidth ∧
          env.outerWidth - env.innerWidth > 250) ∨
         (env.outerHeight - env.innerHeight > 300 ∨
          env.outerWidth - env.innerWidth > 400))) := by
  constructor
  · intro g
    simp only [sizeHeuristic]
    split
    · next hcond => exact iff_of_true rfl hcond
    · next hcond => exact iff_of_false (by simp) hcond
  · intro env
    unfold suspiciousSize
    simp only [Bool.or_eq_true, Bool.and_eq_true, decide_eq_true_eq]
    tauto

/-- C8: the overlay invariant "overlay exists iff belief is Open" is
broken by the code: after a detection, a fully confirmed closure pass
(which removes the overlay) and the 100 ms heal timer, the overlay is
present again while belief is Closed — the removal watcher recreates it
unconditionally.  Creating the overlay while one is present is indeed a
no-op. -/
theorem C8_overlay_resurrects_after_deactivation :
    resurrectTrace.isDevToolsOpen = false ∧
    resurrectTrace.overlayPresent = true ∧
    showEnhancedProtectionOverlay openExState = openExState := by decide

/-- C10: once `blockBypassMethods` has run, every call through the
`window.eval` slot and every construction through the `window.Function`
slot throws, for all arguments, after any further event sequence
(including deactivation) and hence in both belief states. -/
theorem C10_eval_function_blocked_permanently :
    ∀ (st : PState) (evs : List PEvent) (args fargs : List String),
      evalCall (runEvents evs (step PEvent.setupBypass st)) args =
        Except.error "eval() is disabled" ∧
      functionCtorCall (runEvents evs (step PEvent.setupBypass st)) fargs =
        Except.error "Function constructor is disabled" := by
  intro st evs args fargs
  have he : (step PEvent.setupBypass st).evalBlocked = true := rfl
  have hf : (step PEvent.setupBypass st).functionBlocked = true := rfl
  constructor
  · unfold evalCall
    rw [runEvents_evalBlocked evs _ he]
    simp
  · unfold functionCtorCall
    rw [runEvents_functionBlocked evs _ hf]
    simp

/-- C9: in the lightweight variant, every callback registered via
`onChange` is invoked by the shared dispatch helper for every emitted
event, receiving that event's detail: the `{type, detail}` payload for
tamper events, `none` for the one-shot ready event, and the
`{open, reason}` payload for belief changes. -/
theorem C9_dispatch_reaches_every_listener :
    ∀ (st : ShieldState) (cb : Nat) (ev : ShieldEvent) (t : String)
      (i : Option String) (o : Bool) (rn : String),
      (cb, detailOf ev) ∈ dispatchCalls (onChange st cb) ev ∧
      detailOf (ShieldEvent.tamperEv t i) = some (ShieldDetail.tamper t i) ∧
      detailOf ShieldEvent.shieldReady = none ∧
      detailOf (ShieldEvent.devtoolsChange o rn) =
        some (ShieldDetail.change o rn) := by
  intro st cb ev t i o rn
  refine ⟨?_, rfl, rfl, rfl⟩
  unfold dispatchCalls onChange
  split
  · next hmem => exact List.mem_map.mpr ⟨cb, hmem, rfl⟩
  · exact List.mem_map.mpr ⟨cb, List.mem_cons_self _ _, rfl⟩
